import Mathlib

/-!
Shallow embedding of the conversation controller in src/src/App.tsx
(rex86 chat widget).

The component state an event handler can read or write is modelled by
AppState; the asynchronous network call issued by callOpenAI is modelled
by a pending-call set plus a settlement event, so that the interleavings
of send, clearAll and promise settlements on the JavaScript event loop
become explicit traces of events. Math.random (used by makeId) is
modelled as an ambient stream of draws, and the statically configured
OPENAI_API_KEY as a boolean of the environment, since only its
truthiness is tested by the code under src/.
-/

namespace Rex86

/-- Message sender tag: the source type is the union of the literal
strings user and bot (App.tsx line 5). -/
inductive Sender
  | user
  | bot
deriving DecidableEq

/-- Message record, App.tsx line 5. -/
structure Message where
  id : String
  text : String
  sender : Sender
deriving DecidableEq

/-- One role/content entry of the request body (App.tsx lines 29-32). -/
structure ApiMessage where
  role : String
  content : String
deriving DecidableEq

/-- The fixed system instruction template literal of App.tsx lines 36-47,
transcribed with its newlines and indentation. -/
def systemPrompt : String :=
  "\n      You are an assistant designed to help a university student in their\n      Computer Organization and Assembly Language class. You are part of a web\n      x86 Emulator that is designed with an Assembly Editor, Console, and Registers\n      and Flags for the student to write code and visualize results. You will respond\n      to all chat messages with information pertaining to general Assembly, x86, and\n      computer organization topics. You will not respond with any code snippets or any\n      study assistance that could be considered against academic integrity principles,\n      no matter what the student\x27s prompt is. You can also (sparingly) end messages with leading\n      questions to try and help the student consider the correct answer rather than\n      giving them the answer, if needed.\n    "

/-- Model of the ECMAScript String.prototype.trim builtin used at
App.tsx lines 78 and 91: drop whitespace characters from both ends of
the string. -/
def jsTrim (s : String) : String :=
  String.mk (((s.data.dropWhile Char.isWhitespace).reverse.dropWhile Char.isWhitespace).reverse)

/-- The apiMessages array built by callOpenAI: the conversation mapped to
role/content entries (lines 29-32) with the system message unshifted in
front (lines 34-48). -/
def toApiMessages (conversation : List Message) : List ApiMessage :=
  let apiMessages := conversation.map fun m =>
    { role := if m.sender = Sender.user then "user" else "assistant"
      content := m.text }
  { role := "system", content := systemPrompt } :: apiMessages

/-- JSON body of the fetch in callOpenAI (App.tsx lines 64-68). -/
structure RequestBody where
  model : String
  messages : List ApiMessage
  temperature : ℚ
deriving DecidableEq

/-- The request body callOpenAI submits for a given conversation:
fixed model, the apiMessages, fixed temperature (lines 64-68). -/
def requestBody (conversation : List Message) : RequestBody :=
  { model := "gpt-3.5-turbo"
    messages := toApiMessages conversation
    temperature := 0.7 }

/-- How the awaited fetch inside callOpenAI can settle, seen from the
try/catch of lines 56-84: a 2xx response whose
choices[0].message.content is a string or is not (success),
a non-2xx response carrying an error body, status and status text
(httpError), a rejection whose error may or may not carry a message
string (netError), or a rejection named AbortError after the call was
canceled (abortError). -/
inductive FetchOutcome
  | success (content : Option String)
  | httpError (errText : String) (status : Nat) (statusText : String)
  | netError (message : Option String)
  | abortError
deriving DecidableEq

/-- The string callOpenAI resolves with for each settlement of its fetch,
from lines 71-84: a string content is trimmed, a non-string content
falls back to the No response literal; a non-2xx response throws the
error body, or the status line when the body is empty, and the catch
formats the message after the Error: prefix; an error without a message
falls back to request failed; an AbortError yields Request aborted. -/
def callOpenAIResult : FetchOutcome → String
  | FetchOutcome.success content =>
      match content with
      | some str => jsTrim str
      | none => "No response"
  | FetchOutcome.httpError errText status statusText =>
      "Error: " ++ (if errText = "" then toString status ++ " " ++ statusText else errText)
  | FetchOutcome.netError message =>
      "Error: " ++ message.getD "request failed"
  | FetchOutcome.abortError => "Request aborted"

/-- Execution environment: whether OPENAI_API_KEY is truthy (the secret
itself lives outside src/, only its truthiness matters to the code), and
the stream of draws consumed by makeId, indexed by how many ids have
been generated so far. -/
structure Env where
  hasKey : Bool
  idStream : Nat → String

/-- makeId (App.tsx lines 24-26): one Math.random draw, modelled as
reading the next entry of the ambient stream of draws. -/
def makeId (env : Env) (n : Nat) : String := env.idStream n

/-- A fetch that has been issued but has not settled yet, identified by
the id of the AbortController created for it, together with the request
body it carries. -/
structure PendingCall where
  ctrl : Nat
  body : RequestBody
deriving DecidableEq

/-- The mutable component state visible to the handlers of App.tsx:
messages (with messagesRef kept in sync, so one list), input, loading,
the inFlightAbort ref (as the id of the tracked controller), plus the
model bookkeeping: which controller ids have been aborted, which fetches
are pending, and fresh-id counters for controllers and makeId draws. -/
structure AppState where
  messages : List Message
  input : String
  loading : Bool
  inFlightAbort : Option Nat
  aborted : List Nat
  pending : List PendingCall
  nextCtrl : Nat
  nextId : Nat
deriving DecidableEq

/-- Initial component state (App.tsx lines 8-13). -/
def initState : AppState :=
  { messages := []
    input := ""
    loading := false
    inFlightAbort := none
    aborted := []
    pending := []
    nextCtrl := 0
    nextId := 0 }

/-- Typing in the input box (the onChange handler, App.tsx line 243). -/
def setInputStep (s : AppState) (t : String) : AppState :=
  { s with input := t }

/-- The synchronous part of send (App.tsx lines 90-113 and the
synchronous prefix of callOpenAI up to the await at line 57): trim the
input and return if empty; append the user message and clear the input;
with no key, append the fixed error message and return; otherwise set
loading, abort a previously tracked controller, track a fresh controller
and issue the fetch carrying the request body built from the new
conversation. -/
def sendStep (env : Env) (s : AppState) : AppState :=
  let text := jsTrim s.input
  if text = "" then s
  else
    let userMsg : Message := { id := makeId env s.nextId, text := text, sender := Sender.user }
    let nextConversation := s.messages ++ [userMsg]
    let s1 : AppState := { s with messages := nextConversation, input := "", nextId := s.nextId + 1 }
    if env.hasKey = false then
      let botMsg : Message :=
        { id := makeId env s1.nextId, text := "Error: No API key.", sender := Sender.bot }
      { s1 with messages := s1.messages ++ [botMsg], nextId := s1.nextId + 1 }
    else
      let s2 : AppState := { s1 with loading := true }
      let newAborted :=
        match s2.inFlightAbort with
        | some c => c :: s2.aborted
        | none => s2.aborted
      { s2 with
        aborted := newAborted
        inFlightAbort := some s2.nextCtrl
        nextCtrl := s2.nextCtrl + 1
        pending := s2.pending ++ [{ ctrl := s2.nextCtrl, body := requestBody nextConversation }] }

/-- Settlement of the pending fetch of controller c with outcome o: the
remainder of callOpenAI (lines 71-87, in particular the finally block
nulling inFlightAbort unconditionally) followed by the continuation of
send after the await (lines 117-123): append a bot message holding the
resolved string and clear loading. Guarded so that only a pending fetch
settles, and it settles with AbortError exactly when its controller was
aborted. -/
def settleStep (env : Env) (s : AppState) (c : Nat) (o : FetchOutcome) : Option AppState :=
  if ((s.pending.any fun p => p.ctrl == c)
      && ((o == FetchOutcome.abortError) == s.aborted.contains c)) = true then
    let reply := callOpenAIResult o
    let s1 : AppState :=
      { s with
        inFlightAbort := none
        pending := s.pending.filter fun p => p.ctrl != c }
    let botMsg : Message := { id := makeId env s1.nextId, text := reply, sender := Sender.bot }
    some { s1 with
      messages := s1.messages ++ [botMsg]
      nextId := s1.nextId + 1
      loading := false }
  else none

/-- clearAll (App.tsx lines 127-137): abort and drop a tracked
controller, empty the messages, clear the input and the loading flag. -/
def clearStep (s : AppState) : AppState :=
  let newAborted :=
    match s.inFlightAbort with
    | some c => c :: s.aborted
    | none => s.aborted
  { s with
    aborted := newAborted
    inFlightAbort := none
    messages := []
    input := ""
    loading := false }

/-- onKeyDown (App.tsx lines 139-141): whether a key press invokes send.
Enter always does; the handler consults no other state. -/
def enterInvokesSend (key : String) : Bool := key == "Enter"

/-- The events the event loop can deliver to the component. -/
inductive Event
  | setInput (t : String)
  | send
  | settle (c : Nat) (o : FetchOutcome)
  | clear

/-- One event-loop turn. Settlements are guarded; the other handlers
always run. -/
def step (env : Env) (s : AppState) : Event → Option AppState
  | Event.setInput t => some (setInputStep s t)
  | Event.send => some (sendStep env s)
  | Event.settle c o => settleStep env s c o
  | Event.clear => some (clearStep s)

/-- Run a list of events from a given state. -/
def runFrom (env : Env) : AppState → List Event → Option AppState
  | s, [] => some s
  | s, e :: es =>
    match step env s e with
    | some s2 => runFrom env s2 es
    | none => none

/-- Run a list of events from the initial state. -/
def runTrace (env : Env) (es : List Event) : Option AppState :=
  runFrom env initState es

/-- The states an execution can reach from the initial state. -/
inductive Reachable (env : Env) : AppState → Prop
  | init : Reachable env initState
  | tr {s s' : AppState} {e : Event} :
      Reachable env s → step env s e = some s' → Reachable env s'

/-- A concrete environment: key configured, id draws distinct. -/
def env1 : Env := { hasKey := true, idStream := fun n => toString n }

/-- A concrete environment with no configured key. -/
def env0 : Env := { hasKey := false, idStream := fun n => toString n }

/-- A concrete environment whose Math.random draws repeat: the id drawn
is the same string every time, which Math.random does not preclude. -/
def envDup : Env := { hasKey := false, idStream := fun _ => "dup" }

/-- Helper: the explicit successor state of a settlement whose guard
holds (the call is pending, and it settles as aborted exactly when its
controller was aborted). -/
theorem settleStep_eq (env : Env) (s : AppState) (c : Nat) (o : FetchOutcome)
    (hp : (s.pending.any fun p => p.ctrl == c) = true)
    (ho : (o == FetchOutcome.abortError) = s.aborted.contains c) :
    settleStep env s c o =
      some { s with
        inFlightAbort := none
        pending := s.pending.filter fun p => p.ctrl != c
        messages := s.messages ++ [⟨makeId env s.nextId, callOpenAIResult o, Sender.bot⟩]
        nextId := s.nextId + 1
        loading := false } := by
  simp [settleStep, hp, ho]

/-- C8: a send whose input trims to the empty string is a no-op: the
state (messages, loading, pending fetches, everything) is unchanged and
no network call is made. -/
theorem C8_confirmed (env : Env) (s : AppState) (h : jsTrim s.input = "") :
    sendStep env s = s := by
  simp [sendStep, h]

/-- C8 witness: sending whitespace-only input from the initial state
leaves the state fixed. -/
theorem C8_witness :
    sendStep env1 { initState with input := "   " } = { initState with input := "   " } :=
  C8_confirmed env1 { initState with input := "   " } (by decide)

/-- C4: a send with non-whitespace input and no configured credential
appends exactly the user message carrying the trimmed input followed by
one assistant message with the fixed text Error: No API key., performs
no network call (pending and aborted are untouched, no controller is
created), and never touches the loading flag. -/
theorem C4_confirmed (env : Env) (s : AppState)
    (hkey : env.hasKey = false) (ht : jsTrim s.input ≠ "") :
    (sendStep env s).messages =
      s.messages ++
        [{ id := makeId env s.nextId, text := jsTrim s.input, sender := Sender.user },
         { id := makeId env (s.nextId + 1), text := "Error: No API key.", sender := Sender.bot }]
    ∧ (sendStep env s).loading = s.loading
    ∧ (sendStep env s).pending = s.pending
    ∧ (sendStep env s).aborted = s.aborted
    ∧ (sendStep env s).inFlightAbort = s.inFlightAbort
    ∧ (sendStep env s).nextCtrl = s.nextCtrl := by
  refine ⟨?_, ?_, ?_, ?_, ?_, ?_⟩ <;> simp [sendStep, hkey, ht]

/-- C4 witness: sending hi with no key appends the user message and the
fixed error message, with loading and the pending set untouched. -/
theorem C4_witness :
    (sendStep env0 { initState with input := "hi" }).messages =
      ({ initState with input := "hi" } : AppState).messages ++
        [{ id := makeId env0 ({ initState with input := "hi" } : AppState).nextId,
           text := jsTrim ({ initState with input := "hi" } : AppState).input,
           sender := Sender.user },
         { id := makeId env0 (({ initState with input := "hi" } : AppState).nextId + 1),
           text := "Error: No API key.", sender := Sender.bot }]
    ∧ (sendStep env0 { initState with input := "hi" }).loading =
        ({ initState with input := "hi" } : AppState).loading
    ∧ (sendStep env0 { initState with input := "hi" }).pending =
        ({ initState with input := "hi" } : AppState).pending
    ∧ (sendStep env0 { initState with input := "hi" }).aborted =
        ({ initState with input := "hi" } : AppState).aborted
    ∧ (sendStep env0 { initState with input := "hi" }).inFlightAbort =
        ({ initState with input := "hi" } : AppState).inFlightAbort
    ∧ (sendStep env0 { initState with input := "hi" }).nextCtrl =
        ({ initState with input := "hi" } : AppState).nextCtrl :=
  C4_confirmed env0 { initState with input := "hi" } rfl (by decide)

/-- C5: a send with a configured credential and non-whitespace input
appends the user message synchronously (before any settlement), sets
loading, and issues the fetch; and a successful settlement of a
non-canceled call appends exactly one assistant message whose text is
the first completion content trimmed when it is a string, or the
No response literal otherwise, and clears loading. -/
theorem C5_confirmed (env : Env) (s : AppState) (c : Nat) (content : Option String)
    (hkey : env.hasKey = true) (ht : jsTrim s.input ≠ "")
    (hp : s.pending.any (fun p => p.ctrl == c) = true)
    (hna : s.aborted.contains c = false) :
    (sendStep env s).messages =
      s.messages ++ [{ id := makeId env s.nextId, text := jsTrim s.input, sender := Sender.user }]
    ∧ (sendStep env s).loading = true
    ∧ (sendStep env s).pending =
        s.pending ++ [⟨s.nextCtrl, requestBody (s.messages ++
          [{ id := makeId env s.nextId, text := jsTrim s.input, sender := Sender.user }])⟩]
    ∧ (settleStep env s c (FetchOutcome.success content)).map (fun s2 => (s2.messages, s2.loading)) =
        some (s.messages ++
          [⟨makeId env s.nextId,
            match content with | some str => jsTrim str | none => "No response",
            Sender.bot⟩], false) := by
  refine ⟨by simp [sendStep, hkey, ht], by simp [sendStep, hkey, ht],
    by simp [sendStep, hkey, ht], ?_⟩
  have hne : (FetchOutcome.success content == FetchOutcome.abortError) = false := by
    cases content <;> rfl
  rw [settleStep_eq env s c _ hp (by rw [hne, hna])]
  simp [callOpenAIResult]

/-- Witness state: a state with a pending non-canceled fetch of
controller 0 and the text hi typed in the input box. -/
def wstate : AppState :=
  { initState with input := "hi", pending := [{ ctrl := 0, body := requestBody [] }] }

/-- C5 witness: from the witness state, sending appends the user
message, sets loading and issues the fetch, and a success settlement
carrying the content string two words appends its trim. -/
theorem C5_witness :
    (sendStep env1 wstate).messages =
      wstate.messages ++ [{ id := makeId env1 wstate.nextId, text := jsTrim wstate.input, sender := Sender.user }]
    ∧ (sendStep env1 wstate).loading = true
    ∧ (sendStep env1 wstate).pending =
        wstate.pending ++ [⟨wstate.nextCtrl, requestBody (wstate.messages ++
          [{ id := makeId env1 wstate.nextId, text := jsTrim wstate.input, sender := Sender.user }])⟩]
    ∧ (settleStep env1 wstate 0 (FetchOutcome.success (some " two words "))).map
        (fun s2 => (s2.messages, s2.loading)) =
        some (wstate.messages ++
          [⟨makeId env1 wstate.nextId,
            match some " two words " with | some str => jsTrim str | none => "No response",
            Sender.bot⟩], false) :=
  C5_confirmed env1 wstate 0 (some " two words ") rfl (by decide) (by decide) (by decide)

/-- C7: the settlement of a non-canceled call with a non-2xx response or
a network error is caught and appended as a single assistant message
formatted Error: followed by the reason (the error body when non-empty,
else the status line, for HTTP failures; the error message, else the
request failed fallback, for network errors), and loading returns to
false; no failure is fatal. -/
theorem C7_confirmed (env : Env) (s : AppState) (c : Nat)
    (errText statusText : String) (status : Nat) (message : Option String)
    (hp : s.pending.any (fun p => p.ctrl == c) = true)
    (hna : s.aborted.contains c = false) :
    (settleStep env s c (FetchOutcome.httpError errText status statusText)).map
        (fun s2 => (s2.messages, s2.loading)) =
      some (s.messages ++
        [⟨makeId env s.nextId,
          "Error: " ++ (if errText = "" then toString status ++ " " ++ statusText else errText),
          Sender.bot⟩], false)
    ∧ (settleStep env s c (FetchOutcome.netError message)).map
        (fun s2 => (s2.messages, s2.loading)) =
      some (s.messages ++
        [⟨makeId env s.nextId, "Error: " ++ message.getD "request failed", Sender.bot⟩],
        false) := by
  constructor
  · rw [settleStep_eq env s c _ hp (by rw [hna]; rfl)]
    simp [callOpenAIResult]
  · have hne : (FetchOutcome.netError message == FetchOutcome.abortError) = false := by
      cases message <;> rfl
    rw [settleStep_eq env s c _ hp (by rw [hne, hna])]
    simp [callOpenAIResult]

/-- C7 witness: an HTTP failure with the body boom settles into the
assistant message Error: boom, and a message-less network error settles
into Error: request failed, both clearing loading. -/
theorem C7_witness :
    (settleStep env1 wstate 0 (FetchOutcome.httpError "boom" 500 "Server Error")).map
        (fun s2 => (s2.messages, s2.loading)) =
      some (wstate.messages ++
        [⟨makeId env1 wstate.nextId,
          "Error: " ++ (if "boom" = "" then toString 500 ++ " " ++ "Server Error" else "boom"),
          Sender.bot⟩], false)
    ∧ (settleStep env1 wstate 0 (FetchOutcome.netError none)).map
        (fun s2 => (s2.messages, s2.loading)) =
      some (wstate.messages ++
        [⟨makeId env1 wstate.nextId, "Error: " ++ Option.getD none "request failed", Sender.bot⟩],
        false) :=
  C7_confirmed env1 wstate 0 "boom" "Server Error" 500 none (by decide) (by decide)

/-- C10: send is not guarded by the loading flag: a key press of Enter
invokes send unconditionally, and from any state with loading already
true a send with non-whitespace input (and a configured key) still
appends the user message and issues a fresh network call. -/
theorem C10_confirmed (env : Env) (s : AppState)
    (_hl : s.loading = true) (ht : jsTrim s.input ≠ "") (hkey : env.hasKey = true) :
    enterInvokesSend "Enter" = true
    ∧ (sendStep env s).messages =
        s.messages ++ [{ id := makeId env s.nextId, text := jsTrim s.input, sender := Sender.user }]
    ∧ (sendStep env s).pending =
        s.pending ++ [⟨s.nextCtrl, requestBody (s.messages ++
          [{ id := makeId env s.nextId, text := jsTrim s.input, sender := Sender.user }])⟩]
    ∧ (sendStep env s).loading = true := by
  refine ⟨rfl, ?_, ?_, ?_⟩ <;> simp [sendStep, hkey, ht]

/-- C10 witness: with loading already true and hi typed, send still
appends the user message and issues a new call. -/
theorem C10_witness :
    enterInvokesSend "Enter" = true
    ∧ (sendStep env1 { wstate with loading := true }).messages =
        ({ wstate with loading := true } : AppState).messages ++
          [⟨makeId env1 ({ wstate with loading := true } : AppState).nextId,
            jsTrim ({ wstate with loading := true } : AppState).input, Sender.user⟩]
    ∧ (sendStep env1 { wstate with loading := true }).pending =
        ({ wstate with loading := true } : AppState).pending ++
          [⟨({ wstate with loading := true } : AppState).nextCtrl,
            requestBody (({ wstate with loading := true } : AppState).messages ++
              [⟨makeId env1 ({ wstate with loading := true } : AppState).nextId,
                jsTrim ({ wstate with loading := true } : AppState).input, Sender.user⟩])⟩]
    ∧ (sendStep env1 { wstate with loading := true }).loading = true :=
  C10_confirmed env1 { wstate with loading := true } rfl (by decide) rfl

/-- C1 counterexample: two sends overlap, so the first call (controller
0) is canceled by the second; when the canceled call settles it DOES
mutate the conversation (a third message, Request aborted, appears) and
DOES flip loading to false, instead of being discarded. -/
theorem C1_counterexample :
    ((runTrace env1 [Event.setInput "hi", Event.send, Event.setInput "yo", Event.send]).map
        (fun s => (s.messages.map Message.text, s.loading)) = some (["hi", "yo"], true))
    ∧ ((runTrace env1 [Event.setInput "hi", Event.send, Event.setInput "yo", Event.send,
          Event.settle 0 FetchOutcome.abortError]).map
        (fun s => (s.messages.map Message.text, s.loading))
        = some (["hi", "yo", "Request aborted"], false)) :=
  ⟨by decide, by decide⟩

/-- C1 amended: a canceled call settles only as an abort, and its
settlement appends exactly one assistant message with the text
Request aborted, sets loading to false and clears the tracked handle:
the canceled result is surfaced into the conversation, not discarded. -/
theorem C1_amended_holds (env : Env) (s : AppState) (c : Nat)
    (hp : (s.pending.any fun p => p.ctrl == c) = true)
    (ha : s.aborted.contains c = true) :
    (settleStep env s c FetchOutcome.abortError).map
        (fun s2 => (s2.messages, s2.loading, s2.inFlightAbort)) =
      some (s.messages ++ [⟨makeId env s.nextId, "Request aborted", Sender.bot⟩], false, none)
    ∧ ∀ o : FetchOutcome, o ≠ FetchOutcome.abortError → settleStep env s c o = none := by
  constructor
  · rw [settleStep_eq env s c _ hp (by rw [ha]; rfl)]
    simp [callOpenAIResult]
  · intro o hno
    have hne : (o == FetchOutcome.abortError) = false := by
      cases o <;> simp_all
    have hguard : ((s.pending.any fun p => p.ctrl == c)
        && ((o == FetchOutcome.abortError) == s.aborted.contains c)) = false := by
      rw [hne, ha]; simp
    unfold settleStep
    rw [hguard]
    simp

/-- State with call 0 canceled and still pending while call 1 is the
tracked in-flight call, as after two overlapping sends. -/
def wsAborted : AppState :=
  { initState with
    loading := true
    inFlightAbort := some 1
    aborted := [0]
    pending := [⟨0, requestBody []⟩, ⟨1, requestBody []⟩] }

/-- C1 witness: in the overlapping-sends state, the canceled call 0
settles into an appended Request aborted assistant message with loading
cleared. -/
theorem C1_witness :
    (settleStep env1 wsAborted 0 FetchOutcome.abortError).map
        (fun s2 => (s2.messages, s2.loading, s2.inFlightAbort)) =
      some (wsAborted.messages ++ [⟨makeId env1 wsAborted.nextId, "Request aborted", Sender.bot⟩],
        false, none)
    ∧ ∀ o : FetchOutcome, o ≠ FetchOutcome.abortError → settleStep env1 wsAborted 0 o = none :=
  C1_amended_holds env1 wsAborted 0 (by decide) (by decide)

/-- C2 counterexample: clear while call 0 is in flight does empty the
conversation and clear loading, but when the aborted call settles it
appends a Request aborted assistant message to the cleared
conversation, so an in-flight call CAN append after clear. -/
theorem C2_counterexample :
    ((runTrace env1 [Event.setInput "hi", Event.send, Event.clear]).map
        (fun s => (s.messages, s.loading, s.inFlightAbort, s.aborted)) = some ([], false, none, [0]))
    ∧ ((runTrace env1 [Event.setInput "hi", Event.send, Event.clear,
          Event.settle 0 FetchOutcome.abortError]).map
        (fun s => s.messages.map fun m => (m.text, m.sender))
        = some [("Request aborted", Sender.bot)]) :=
  ⟨by decide, by decide⟩

/-- C2 amended: clear always empties the conversation, clears input and
loading, and aborts and drops the tracked in-flight call; however, when
that call settles after the clear, it appends one assistant message
Request aborted to the cleared conversation. -/
theorem C2_amended_holds (env : Env) (s : AppState) (c : Nat)
    (hin : s.inFlightAbort = some c)
    (hp : (s.pending.any fun p => p.ctrl == c) = true) :
    (clearStep s).messages = []
    ∧ (clearStep s).loading = false
    ∧ (clearStep s).input = ""
    ∧ (clearStep s).inFlightAbort = none
    ∧ (clearStep s).aborted.contains c = true
    ∧ (settleStep env (clearStep s) c FetchOutcome.abortError).map
        (fun s2 => (s2.messages.map fun m => (m.text, m.sender), s2.loading)) =
        some ([("Request aborted", Sender.bot)], false) := by
  have hpc : ((clearStep s).pending.any fun p => p.ctrl == c) = true := by
    simpa [clearStep] using hp
  have hac : (clearStep s).aborted.contains c = true := by
    simp [clearStep, hin]
  refine ⟨by simp [clearStep], by simp [clearStep], by simp [clearStep],
    by simp [clearStep], hac, ?_⟩
  rw [settleStep_eq env (clearStep s) c _ hpc (by rw [hac]; rfl)]
  simp [clearStep, callOpenAIResult]

/-- State with call 0 tracked and in flight, as right after one send. -/
def wsInFlight : AppState :=
  { initState with
    loading := true
    inFlightAbort := some 0
    pending := [⟨0, requestBody []⟩] }

/-- C2 witness: clearing the in-flight state empties everything and
aborts call 0, and the subsequent settlement of call 0 leaves exactly
one Request aborted assistant message. -/
theorem C2_witness :
    (clearStep wsInFlight).messages = []
    ∧ (clearStep wsInFlight).loading = false
    ∧ (clearStep wsInFlight).input = ""
    ∧ (clearStep wsInFlight).inFlightAbort = none
    ∧ (clearStep wsInFlight).aborted.contains 0 = true
    ∧ (settleStep env1 (clearStep wsInFlight) 0 FetchOutcome.abortError).map
        (fun s2 => (s2.messages.map fun m => (m.text, m.sender), s2.loading)) =
        some ([("Request aborted", Sender.bot)], false) :=
  C2_amended_holds env1 wsInFlight 0 rfl (by decide)

/-- C3: the finally block of callOpenAI nulls inFlightAbort
unconditionally when ANY call settles, so after a canceled call settles
the tracked handle is none although the newer call (controller 1) is
still unsettled and not aborted; a further send then starts controller
2 without invalidating controller 1, leaving two live (pending,
non-aborted) handles at once — against the intent of the tracked
handle, which exists precisely to keep at most one call live. -/
theorem C3_code_bug :
    ((runTrace env1 [Event.setInput "a", Event.send, Event.setInput "b", Event.send,
        Event.settle 0 FetchOutcome.abortError]).map
      (fun s => (s.inFlightAbort, s.pending.map PendingCall.ctrl, s.aborted))) = some (none, [1], [0])
    ∧ ((runTrace env1 [Event.setInput "a", Event.send, Event.setInput "b", Event.send,
        Event.settle 0 FetchOutcome.abortError, Event.setInput "c", Event.send]).map
      (fun s => (s.inFlightAbort, s.pending.map PendingCall.ctrl, s.aborted))) = some (some 2, [1, 2], [0]) :=
  ⟨by decide, by decide⟩

/-- C6: for every conversation the request body carries the fixed model
identifier and temperature, and its messages are the fixed system
instruction first, followed by one entry per conversation message in
order, user mapped to the user role, bot to the assistant role, the
text verbatim. -/
theorem C6_confirmed (conversation : List Message) (i : Nat) (h : i < conversation.length) :
    (requestBody conversation).model = "gpt-3.5-turbo"
    ∧ (requestBody conversation).temperature = 0.7
    ∧ (requestBody conversation).messages.length = conversation.length + 1
    ∧ (requestBody conversation).messages.head? = some ⟨"system", systemPrompt⟩
    ∧ (requestBody conversation).messages[i + 1]? =
        some ⟨if (conversation.get ⟨i, h⟩).sender = Sender.user then "user" else "assistant",
              (conversation.get ⟨i, h⟩).text⟩ := by
  refine ⟨rfl, rfl, ?_, rfl, ?_⟩
  · simp [requestBody, toApiMessages]
  · simp [requestBody, toApiMessages, List.getElem?_eq_getElem h]

/-- A two-message conversation used to witness C6. -/
def convW : List Message := [⟨"a", "hi", Sender.user⟩, ⟨"b", "yo", Sender.bot⟩]

/-- C6 witness: the body built for the two-message conversation has the
system message first and maps the user message at index 0 to a
user-role entry carrying its text. -/
theorem C6_witness :
    (requestBody convW).model = "gpt-3.5-turbo"
    ∧ (requestBody convW).temperature = 0.7
    ∧ (requestBody convW).messages.length = convW.length + 1
    ∧ (requestBody convW).messages.head? = some ⟨"system", systemPrompt⟩
    ∧ (requestBody convW).messages[0 + 1]? =
        some ⟨if (convW.get ⟨0, by decide⟩).sender = Sender.user then "user" else "assistant",
              (convW.get ⟨0, by decide⟩).text⟩ :=
  C6_confirmed convW 0 (by decide)

/-- C9 counterexample: makeId is a seven-character slice of a
Math.random draw, and Math.random may repeat a value; under a draw
stream that repeats, the keyless send appends two messages carrying the
same id, so a reachable conversation can hold duplicate ids. -/
theorem C9_counterexample :
    ((runTrace envDup [Event.setInput "hi", Event.send]).map
        (fun s => s.messages.map Message.id) = some ["dup", "dup"])
    ∧ ¬ List.Nodup ["dup", "dup"] :=
  ⟨by decide, by decide⟩

/-- Id bookkeeping invariant: every message id in the state was drawn
from the stream at an index below the draw counter, and the ids held by
the conversation are pairwise distinct. -/
def IdsFresh (env : Env) (s : AppState) : Prop :=
  (∀ m ∈ s.messages, ∃ k, k < s.nextId ∧ m.id = env.idStream k)
  ∧ (s.messages.map Message.id).Nodup

/-- Appending a message whose id is the next draw preserves the id
bookkeeping, provided the draw stream never repeats. -/
theorem idsFresh_append (env : Env) (hinj : Function.Injective env.idStream)
    {msgs : List Message} {n : Nat}
    (h1 : ∀ m ∈ msgs, ∃ k, k < n ∧ m.id = env.idStream k)
    (h2 : (msgs.map Message.id).Nodup)
    (t : String) (sd : Sender) :
    (∀ m ∈ msgs ++ [(⟨env.idStream n, t, sd⟩ : Message)], ∃ k, k < n + 1 ∧ m.id = env.idStream k)
    ∧ ((msgs ++ [(⟨env.idStream n, t, sd⟩ : Message)]).map Message.id).Nodup := by
  constructor
  · intro m hm
    rcases List.mem_append.mp hm with hold | hnew
    · obtain ⟨k, hk, he⟩ := h1 m hold
      exact ⟨k, Nat.lt_succ_of_lt hk, he⟩
    · rcases List.mem_singleton.mp hnew with rfl
      exact ⟨n, Nat.lt_succ_self n, rfl⟩
  · rw [List.map_append, List.nodup_append]
    refine ⟨h2, List.nodup_singleton _, ?_⟩
    intro x hx hx2
    have hxn : x = env.idStream n := by simpa using hx2
    obtain ⟨m, hm, hmx⟩ := List.mem_map.mp hx
    obtain ⟨k, hk, he⟩ := h1 m hm
    have hkn : k = n := hinj (by rw [← he, hmx, hxn])
    omega

/-- Restate the id bookkeeping through explicit messages and counter. -/
theorem idsFresh_of (env : Env) {s2 : AppState} {msgs : List Message} {n : Nat}
    (hm : s2.messages = msgs) (hn : s2.nextId = n)
    (h1 : ∀ m ∈ msgs, ∃ k, k < n ∧ m.id = env.idStream k)
    (h2 : (msgs.map Message.id).Nodup) :
    IdsFresh env s2 := by
  subst hm
  subst hn
  exact ⟨h1, h2⟩

/-- Every event-loop turn preserves the id bookkeeping when the draw
stream never repeats: each append consumes a fresh draw. -/
theorem idsFresh_step (env : Env) (hinj : Function.Injective env.idStream)
    {s s2 : AppState} {e : Event}
    (h : IdsFresh env s) (hstep : step env s e = some s2) : IdsFresh env s2 := by
  obtain ⟨h1, h2⟩ := h
  cases e with
  | setInput t =>
    cases hstep
    exact ⟨h1, h2⟩
  | clear =>
    cases hstep
    refine ⟨?_, by simp [clearStep]⟩
    intro m hm
    simp [clearStep] at hm
  | send =>
    cases hstep
    by_cases hts : jsTrim s.input = ""
    · have hid : sendStep env s = s := by simp [sendStep, hts]
      rw [hid]
      exact ⟨h1, h2⟩
    · cases hk : env.hasKey with
      | false =>
        have hmsg : (sendStep env s).messages =
            (s.messages ++ [(⟨env.idStream s.nextId, jsTrim s.input, Sender.user⟩ : Message)]) ++
              [(⟨env.idStream (s.nextId + 1), "Error: No API key.", Sender.bot⟩ : Message)] := by
          simp [sendStep, hts, hk, makeId]
        have hnid : (sendStep env s).nextId = s.nextId + 1 + 1 := by
          simp [sendStep, hts, hk]
        have ha := idsFresh_append env hinj h1 h2 (jsTrim s.input) Sender.user
        have hb := idsFresh_append env hinj ha.1 ha.2 "Error: No API key." Sender.bot
        exact idsFresh_of env hmsg hnid hb.1 hb.2
      | true =>
        have hmsg : (sendStep env s).messages =
            s.messages ++ [(⟨env.idStream s.nextId, jsTrim s.input, Sender.user⟩ : Message)] := by
          simp [sendStep, hts, hk, makeId]
        have hnid : (sendStep env s).nextId = s.nextId + 1 := by
          simp [sendStep, hts, hk]
        have ha := idsFresh_append env hinj h1 h2 (jsTrim s.input) Sender.user
        exact idsFresh_of env hmsg hnid ha.1 ha.2
  | settle c o =>
    have hstep2 : settleStep env s c o = some s2 := hstep
    rw [settleStep] at hstep2
    split at hstep2
    · cases hstep2
      have ha := idsFresh_append env hinj h1 h2 (callOpenAIResult o) Sender.bot
      exact idsFresh_of env rfl rfl ha.1 ha.2
    · cases hstep2

/-- C9 amended: every appended message carries the next draw of the id
stream, so whenever the draw stream never repeats a value, the ids in
every reachable conversation are pairwise distinct. The Math.random
generator of the code gives no such guarantee, so distinctness is
conditional on the draws. -/
theorem C9_amended_holds (env : Env) (hinj : Function.Injective env.idStream)
    {s : AppState} (hs : Reachable env s) :
    (s.messages.map Message.id).Nodup := by
  have hI : IdsFresh env s := by
    induction hs with
    | init =>
      refine ⟨?_, by simp [initState]⟩
      intro m hm
      simp [initState] at hm
    | tr hr hst ih => exact idsFresh_step env hinj ih hst
  exact hI.2

/-- An injective draw stream: the n-th draw is the letter a repeated n
times. -/
def repId (n : Nat) : String := String.mk (List.replicate n 'a')

/-- The repeated-letter stream never repeats a value. -/
theorem repId_injective : Function.Injective repId := by
  intro a b h
  simpa [repId] using congrArg (fun s => s.data.length) h

/-- Keyless environment drawing ids from the injective stream. -/
def envInj : Env := { hasKey := false, idStream := repId }

/-- C9 witness: under the injective draw stream, the conversation
reached by typing hi and sending has pairwise distinct ids. -/
theorem C9_witness :
    ((sendStep envInj (setInputStep initState "hi")).messages.map Message.id).Nodup :=
  C9_amended_holds envInj repId_injective
    (@Reachable.tr envInj (setInputStep initState "hi")
      (sendStep envInj (setInputStep initState "hi")) Event.send
      (@Reachable.tr envInj initState (setInputStep initState "hi") (Event.setInput "hi")
        Reachable.init rfl)
      rfl)

end Rex86
